import Mathlib

/-!
Shallow embedding of the InstrumentKit packet protocol engine
(`src/instruments/thorlabs/_abstract.py`, `ThorLabsInstrument.querypacket`)
and the composite axis coordinator
(`src/python/src/instruments/abstract_instruments/axis/perp_ac.py`,
`PerpendicularAC`), with theorems settling the specification claims.

Machine reals (Python floats for wall-clock times and axis positions) are
modelled as rationals; byte strings as lists of naturals; the transport's
successive `read_raw` results and the successive `time.time()` readings as
functions of the iteration index.
-/

/-! ## Packet protocol engine -/

/-- A ThorLabs APT packet as the engine sees it: an opaque message identifier
and an opaque payload.  The wire format (`_packets.ThorLabsPacket`) is an
external collaborator; only the identifier is inspected by `querypacket`. -/
structure Packet where
  message_id : Nat
  payload : List Nat
deriving DecidableEq, Repr

/-- The timeout argument of `querypacket`: Python `None` (inherit the
transport default), Python `False` (documented as "wait indefinitely"),
or a duration already normalized to seconds. -/
inductive Timeout where
  | noneT
  | indefinite
  | dur (t : ℚ)
deriving DecidableEq, Repr

/-- Outcome of `querypacket`: a normal return (a packet, or Python `None`
for "no response"), or a raised `IOError` with its message text. -/
inductive QPOutcome where
  | ret (p : Option Packet)
  | err (msg : String)
deriving DecidableEq, Repr

/-- Message of the `IOError` raised when no response arrived but a message id
was expected: `"Expected packet {expect}, got nothing instead."`. -/
def noRespMsg (e : Nat) : String :=
  "Expected packet " ++ toString e ++ ", got nothing instead."

/-- Message of the `IOError` raised on an identifier mismatch:
`"APT returned message ID {got}, expected {expect}"`.  It textually reports
both the received and the expected identifiers. -/
def mismatchMsg (got e : Nat) : String :=
  "APT returned message ID " ++ toString got ++ ", expected " ++ toString e

/-- The `while True` retry loop of `querypacket`, with fuel (`none` means the
loop did not terminate within the given fuel).  `reads i` is the transport's
`read_raw` result on iteration `i` (empty list = empty read) and `times i`
the `time.time()` value sampled on iteration `i`.  The loop breaks with the
current `resp` as soon as `resp` is non-empty or `timeout is None`, and
otherwise breaks when `tic - t_start > timeout`; in Python the value `False`
(mode "wait indefinitely") compares numerically as `0` in that test. -/
def queryLoop (reads : Nat → List Nat) (times : Nat → ℚ) (t_start : ℚ)
    (timeout : Timeout) : Nat → Nat → Option (List Nat)
  | 0, _ => none
  | fuel + 1, i =>
    let resp := reads i
    if resp ≠ [] ∨ timeout = Timeout.noneT then some resp
    else
      let tic := times i
      let bound : ℚ := match timeout with
        | Timeout.indefinite => 0
        | Timeout.dur t => t
        | Timeout.noneT => 0
      if tic - t_start > bound then some resp
      else queryLoop reads times t_start timeout fuel (i + 1)

/-- `ThorLabsInstrument.querypacket`: run the retry loop, then resolve the
response.  `unpack` is the external `_packets.ThorLabsPacket.unpack`
deserializer, applied only to a non-empty response.  Returns `none` when the
retry loop does not terminate within the fuel. -/
def querypacket (unpack : List Nat → Packet) (expect : Option Nat)
    (timeout : Timeout) (reads : Nat → List Nat) (times : Nat → ℚ)
    (t_start : ℚ) (fuel : Nat) : Option QPOutcome :=
  match queryLoop reads times t_start timeout fuel 0 with
  | none => none
  | some resp =>
    if resp = [] then
      match expect with
      | none => some (QPOutcome.ret none)
      | some e => some (QPOutcome.err (noRespMsg e))
    else
      let pkt := unpack resp
      match expect with
      | none => some (QPOutcome.ret (some pkt))
      | some e =>
        if pkt.message_id ≠ e then
          some (QPOutcome.err (mismatchMsg pkt.message_id e))
        else some (QPOutcome.ret (some pkt))

/-- Claim C1 concerns timeout mode "wait indefinitely" (Python `False`).
Because Python evaluates `tic - t_start > False` as `tic - t_start > 0`,
the loop breaks out on the very first empty read once any positive time has
elapsed, instead of disabling the elapsed-time check.  This theorem shows it:
whenever the read on iteration `i` is empty and the clock has advanced past
`t_start` by any positive amount, the loop in mode `indefinite` terminates
immediately with the empty response, and `querypacket` (with no expected id)
returns the "no response" sentinel.  This contradicts the method's own
docstring ("If timeout is set to False, then this method waits
indefinitely"), so the code, not the claim, is at fault. -/
theorem querypacket_indefinite_times_out_immediately
    (unpack : List Nat → Packet) (reads : Nat → List Nat) (times : Nat → ℚ)
    (t_start : ℚ) (fuel : Nat)
    (hread : reads 0 = []) (helapsed : times 0 - t_start > 0) :
    queryLoop reads times t_start Timeout.indefinite (fuel + 1) 0 = some [] ∧
    querypacket unpack none Timeout.indefinite reads times t_start (fuel + 1)
      = some (QPOutcome.ret none) := by
  have hloop : queryLoop reads times t_start Timeout.indefinite (fuel + 1) 0
      = some [] := by
    simp [queryLoop, hread, helapsed]
  exact ⟨hloop, by simp [querypacket, hloop]⟩

/-- Witness for `querypacket_indefinite_times_out_immediately` at a concrete
transport that never responds and a clock one second past the start. -/
theorem querypacket_indefinite_times_out_immediately_witness :
    queryLoop (fun _ => []) (fun _ => 1) 0 Timeout.indefinite 1 0 = some [] ∧
    querypacket (fun _ => ⟨0, []⟩) none Timeout.indefinite (fun _ => [])
      (fun _ => 1) 0 1 = some (QPOutcome.ret none) :=
  querypacket_indefinite_times_out_immediately (fun _ => ⟨0, []⟩)
    (fun _ => []) (fun _ => 1) 0 0 rfl (by norm_num)

/-- Claim C2: once the retry loop produced a non-empty response `resp`, it is
deserialized; with an expected id `e` and `(unpack resp).message_id ≠ e`,
`querypacket` raises the `IOError` whose message (`mismatchMsg`) reports both
the received and the expected identifiers; with a matching expected id, or
with no expected id, the deserialized packet is returned. -/
theorem querypacket_id_check (unpack : List Nat → Packet) (timeout : Timeout)
    (reads : Nat → List Nat) (times : Nat → ℚ) (t_start : ℚ) (fuel : Nat)
    (resp : List Nat)
    (hloop : queryLoop reads times t_start timeout fuel 0 = some resp)
    (hne : resp ≠ []) :
    (∀ e, (unpack resp).message_id ≠ e →
      querypacket unpack (some e) timeout reads times t_start fuel
        = some (QPOutcome.err (mismatchMsg (unpack resp).message_id e))) ∧
    (∀ e, (unpack resp).message_id = e →
      querypacket unpack (some e) timeout reads times t_start fuel
        = some (QPOutcome.ret (some (unpack resp)))) ∧
    querypacket unpack none timeout reads times t_start fuel
      = some (QPOutcome.ret (some (unpack resp))) := by
  refine ⟨fun e hmm => ?_, fun e heq => ?_, ?_⟩ <;>
    simp_all [querypacket, hloop, hne]

/-- Witness for `querypacket_id_check`: a transport that answers `[7]` at
once, an unpacker reading the identifier off the first byte; expecting `3`
yields the mismatch error reporting `7` and `3`, expecting `7` (or nothing)
yields the packet. -/
theorem querypacket_id_check_witness :
    (∀ e, (Packet.mk 7 []).message_id ≠ e →
      querypacket (fun l => ⟨l.headD 0, []⟩) (some e) Timeout.noneT
        (fun _ => [7]) (fun _ => 1) 0 1
        = some (QPOutcome.err (mismatchMsg 7 e))) ∧
    (∀ e, (Packet.mk 7 []).message_id = e →
      querypacket (fun l => ⟨l.headD 0, []⟩) (some e) Timeout.noneT
        (fun _ => [7]) (fun _ => 1) 0 1
        = some (QPOutcome.ret (some ⟨7, []⟩))) ∧
    querypacket (fun l => ⟨l.headD 0, []⟩) none Timeout.noneT
      (fun _ => [7]) (fun _ => 1) 0 1
      = some (QPOutcome.ret (some ⟨7, []⟩)) :=
  querypacket_id_check (fun l => ⟨l.headD 0, []⟩) Timeout.noneT
    (fun _ => [7]) (fun _ => 1) 0 1 [7] (by simp [queryLoop]) (by simp)

/-- Claim C3: when the retry loop ends with the empty response, `querypacket`
returns the "no response" sentinel (Python `None`) if no message id was
expected, and raises the `IOError` whose message (`noRespMsg`) names the
expected id otherwise. -/
theorem querypacket_no_response (unpack : List Nat → Packet)
    (timeout : Timeout) (reads : Nat → List Nat) (times : Nat → ℚ)
    (t_start : ℚ) (fuel : Nat)
    (hloop : queryLoop reads times t_start timeout fuel 0 = some []) :
    querypacket unpack none timeout reads times t_start fuel
      = some (QPOutcome.ret none) ∧
    ∀ e, querypacket unpack (some e) timeout reads times t_start fuel
      = some (QPOutcome.err (noRespMsg e)) := by
  exact ⟨by simp [querypacket, hloop], fun e => by simp [querypacket, hloop]⟩

/-- Witness for `querypacket_no_response`: a transport that never answers and
a one-second timeout exceeded by the clock; with no expected id the result is
the sentinel, with expected id `5` it is the communication error naming 5. -/
theorem querypacket_no_response_witness :
    querypacket (fun _ => ⟨0, []⟩) none (Timeout.dur 1) (fun _ => [])
      (fun _ => 2) 0 1 = some (QPOutcome.ret none) ∧
    ∀ e, querypacket (fun _ => ⟨0, []⟩) (some e) (Timeout.dur 1) (fun _ => [])
      (fun _ => 2) 0 1 = some (QPOutcome.err (noRespMsg e)) :=
  querypacket_no_response (fun _ => ⟨0, []⟩) (Timeout.dur 1) (fun _ => [])
    (fun _ => 2) 0 1 (by simp [queryLoop])

/-! ## Composite axis coordinator (`PerpendicularAC`) -/

/-- An axis sub-collection as `PerpendicularAC` observes it: its axis count
(Python `len`), and its `position`, `limits`, `units` and
`is_hardware_scannable` attributes, which the composite concatenates with
`+`.  Units are unit names; positions and limits are magnitudes in those
units. -/
structure SubAC where
  len : Nat
  position : List ℚ
  limits : List (ℚ × ℚ)
  units : List String
  is_hardware_scannable : List Bool
deriving DecidableEq, Repr

/-- Observable commands issued to the two stored sub-collections, and the
scan notification hooks fired by `_scan`, in issue order. -/
inductive Ev where
  | majorMove (pos : List ℚ) (absolute : Bool)
  | minorMove (pos : List ℚ) (absolute : Bool)
  | minorRaster (start stop : List ℚ) (num : List Nat) (dwell : Option ℚ)
  | scanStart (coords : List (List ℚ)) (dwell : Option ℚ)
  | scanStep (coord : List ℚ) (dwell : Option ℚ)
  | scanComplete (coords : List (List ℚ)) (dwell : Option ℚ)
deriving DecidableEq, Repr

/-- The composite: references to the two sub-collections plus the two axis
counts snapshotted by `__init__`. -/
structure PerpendicularAC where
  major_axes : SubAC
  minor_axes : SubAC
  n_major_axes : Nat
  n_minor_axes : Nat
deriving DecidableEq, Repr

/-- `PerpendicularAC.__init__`: store both collections and snapshot
`len(major_axes)` and `len(minor_axes)`. -/
def mkPerp (maj minr : SubAC) : PerpendicularAC :=
  ⟨maj, minr, maj.len, minr.len⟩

/-- `PerpendicularAC.__len__`: `self._n_major_axes + self._n_minor_axes`. -/
def PerpendicularAC.len (c : PerpendicularAC) : Nat :=
  c.n_major_axes + c.n_minor_axes

/-- The `finest_axes` property.  Its body is the bare expression statement
`self._minor_axes` with no `return`, so Python evaluates the attribute,
discards it, and the property returns `None`. -/
def PerpendicularAC.finest_axes (c : PerpendicularAC) : Option SubAC :=
  let _discarded := c.minor_axes
  none

/-- The `is_hardware_scannable` property: major value `+` minor value. -/
def PerpendicularAC.is_hardware_scannable (c : PerpendicularAC) : List Bool :=
  c.major_axes.is_hardware_scannable ++ c.minor_axes.is_hardware_scannable

/-- The `limits` property: major value `+` minor value. -/
def PerpendicularAC.limits (c : PerpendicularAC) : List (ℚ × ℚ) :=
  c.major_axes.limits ++ c.minor_axes.limits

/-- The `position` property: major value `+` minor value. -/
def PerpendicularAC.position (c : PerpendicularAC) : List ℚ :=
  c.major_axes.position ++ c.minor_axes.position

/-- The `units` property: major value `+` minor value. -/
def PerpendicularAC.units (c : PerpendicularAC) : List String :=
  c.major_axes.units ++ c.minor_axes.units

/-- `PerpendicularAC._move`: slice the position into the first
`_n_major_axes` entries and the rest, then command the stored major
collection (first) and the stored minor collection (second), both with the
same `absolute` flag.  Returned as the trace of issued commands. -/
def PerpendicularAC._move (c : PerpendicularAC) (position : List ℚ)
    (absolute : Bool) : List Ev :=
  let major_pos := position.take c.n_major_axes
  let minor_pos := position.drop c.n_major_axes
  [Ev.majorMove major_pos absolute, Ev.minorMove minor_pos absolute]

/-- Number of tuples produced by `itertools.izip(*ls)`: the minimum of the
list lengths (zero when `ls` is empty, matching `izip()` with no
arguments). -/
def izipLen (ls : List (List ℚ)) : Nat :=
  match ls with
  | [] => 0
  | l :: rest => (rest.map List.length).foldl min l.length

/-- `itertools.izip(*ls)`: the sequence of cross-list tuples, the `i`-th
tuple collecting the `i`-th entry of every list, stopping at the shortest
list. -/
def izipAll (ls : List (List ℚ)) : List (List ℚ) :=
  (List.range (izipLen ls)).map (fun i => ls.map (fun l => l.getD i 0))

/-- `PerpendicularAC._scan`: fire `on_scan_start` with the full coordinate
set and dwell time; for each point of `izip(*coords)` call `_move` (with its
default `absolute=True`, bypassing any move-history bookkeeping) and fire
`on_scan_step` with that point and the dwell time; finally fire
`on_scan_complete` with the full coordinate set and dwell time. -/
def PerpendicularAC._scan (c : PerpendicularAC) (coords : List (List ℚ))
    (dwell_time : Option ℚ) : List Ev :=
  [Ev.scanStart coords dwell_time]
    ++ (izipAll coords).flatMap
        (fun coord => c._move coord true ++ [Ev.scanStep coord dwell_time])
    ++ [Ev.scanComplete coords dwell_time]

/-- `numpy.linspace a b num`: `num` evenly spaced samples from `a` to `b`
inclusive (`[a]` when `num = 1`, empty when `num = 0`), over exact
rationals. -/
def linspace (a b : ℚ) (num : Nat) : List ℚ :=
  match num with
  | 0 => []
  | 1 => [a]
  | _ => (List.range num).map (fun i => a + (b - a) * i / (num - 1))

/-- Cartesian product of a list of lists, the first list varying slowest and
the last varying fastest (C-order / "typewriter" enumeration of the
multi-index). -/
def cartProd : List (List (ℚ × String)) → List (List (ℚ × String))
  | [] => [[]]
  | l :: ls => l.flatMap (fun x => (cartProd ls).map (fun t => x :: t))

/-- The flattened major-axis grid plan produced by
`np.array(np.meshgrid(*steps)).transpose().reshape((np.prod(num), n))` with
meshgrid's default `indexing` (which swaps the first two dimensions).  The
C-order flattening of the reversed-axes transpose enumerates the multi-index
with the loop nesting: last axis slowest, down to the third axis, then the
first axis, then the second axis fastest.  With one steps list the plan is
that list's entries as singleton coordinates; the empty case is the
degenerate idealization. -/
def meshgridXYPlan (steps : List (List (ℚ × String))) :
    List (List (ℚ × String)) :=
  match steps with
  | [] => [[]]
  | [l] => l.map (fun x => [x])
  | l1 :: l2 :: rest =>
    let k := rest.length
    (cartProd (rest.reverse ++ [l1, l2])).map
      (fun t => t.drop k ++ (t.take k).reverse)

/-- The `major_axis_steps` list of `_raster`: slice `start`, `stop`, `num` to
the first `_n_major_axes` entries, `izip` them with the major collection's
units (truncating at the shortest), and discretize each axis with
`np.linspace` from `assume_units(start, unit)` to `assume_units(stop, unit)`
with that axis's point count — each sample a magnitude in that axis's
declared unit. -/
def majorAxisSteps (c : PerpendicularAC) (start stop : List ℚ)
    (num : List Nat) : List (List (ℚ × String)) :=
  let major_start := start.take c.n_major_axes
  let major_stop := stop.take c.n_major_axes
  let major_num := num.take c.n_major_axes
  (major_start.zip (major_stop.zip (major_num.zip c.major_axes.units))).map
    (fun q => (linspace q.1 q.2.1 q.2.2.1).map (fun v => (v, q.2.2.2)))

/-- The flattened major-axis coordinate plan of `_raster`. -/
def majorPlan (c : PerpendicularAC) (start stop : List ℚ)
    (num : List Nat) : List (List (ℚ × String)) :=
  meshgridXYPlan (majorAxisSteps c start stop num)

/-- The error raised by the loop body of `_raster`: it evaluates
`self._major_axis.move(coord)`, but `__init__` assigned only `_major_axes`
and `_minor_axes` (plural), so Python raises an `AttributeError` on the
first grid coordinate. -/
def attrErrMsg : String :=
  "AttributeError: PerpendicularAC instance has no attribute _major_axis"

/-- `PerpendicularAC._raster`: slice the arguments, build the flattened
major grid plan, then loop over it.  The loop body reads the non-existent
attribute `_major_axis`, so the first iteration raises `AttributeError`;
only when the plan is empty does the loop body never run, and the method
then returns having commanded neither sub-collection. -/
def PerpendicularAC._raster (c : PerpendicularAC) (start stop : List ℚ)
    (num : List Nat) (dwell_time : Option ℚ) : Except String (List Ev) :=
  let _minor_start := start.drop c.n_major_axes
  let _minor_stop := stop.drop c.n_major_axes
  let _minor_num := num.drop c.n_major_axes
  let _dwell := dwell_time
  match majorPlan c start stop num with
  | [] => Except.ok []
  | _ :: _ => Except.error attrErrMsg

/-- Usage error of the base-class `move` wrapper on a malformed position
sequence. -/
def usageMoveMsg : String :=
  "ValueError: position sequence length differs from the axis count"

/-- Usage error of the base-class `raster` wrapper on malformed argument
sequences. -/
def usageRasterMsg : String :=
  "ValueError: raster argument length differs from the axis count"

/-- Modelled from the spec: the public `move` wrapper inherited from the
abstract base class `AxisCollection` (file `axis_collection.py`, which is
not under src/).  Per the spec it accepts "an ordered sequence of per-axis
target positions whose length equals the composite axis count" and raises
"a usage error ... before any sub-collection is touched" on a sequence
length mismatch; otherwise it delegates to `_move`. -/
def PerpendicularAC.move (c : PerpendicularAC) (position : List ℚ)
    (absolute : Bool) : Except String (List Ev) :=
  if position.length ≠ c.len then Except.error usageMoveMsg
  else Except.ok (c._move position absolute)

/-- Modelled from the spec: the public `raster` wrapper inherited from the
abstract base class `AxisCollection` (file `axis_collection.py`, which is
not under src/).  Per the spec it accepts per-axis `start`, `stop`, `num`
sequences "covering all composite axes" and raises a usage error before any
sub-collection is touched when a supplied sequence length differs from the
composite axis count; otherwise it delegates to `_raster`. -/
def PerpendicularAC.raster (c : PerpendicularAC) (start stop : List ℚ)
    (num : List Nat) (dwell_time : Option ℚ) : Except String (List Ev) :=
  if start.length ≠ c.len ∨ stop.length ≠ c.len ∨ num.length ≠ c.len then
    Except.error usageRasterMsg
  else c._raster start stop num dwell_time

/-- A concrete two-axis collection (the spec's §8 example major side). -/
def majXY : SubAC := ⟨2, [0, 0], [(0, 10), (0, 20)], ["mm", "mm"], [true, true]⟩

/-- A concrete one-axis collection (the spec's §8 example minor side). -/
def minZ : SubAC := ⟨1, [0], [(0, 5)], ["mm"], [false]⟩

/-- A concrete one-axis major collection. -/
def majX : SubAC := ⟨1, [0], [(0, 10)], ["mm"], [true]⟩

/-- A concrete three-axis major collection. -/
def maj3 : SubAC :=
  ⟨3, [0, 0, 0], [(0, 1), (0, 1), (0, 1)], ["mm", "mm", "mm"],
    [true, true, true]⟩

/-- The spec's §8 example composite: two major axes, one minor axis. -/
def compXYZ : PerpendicularAC := mkPerp majXY minZ

/-- A composite with one major axis and one minor axis. -/
def compXZ : PerpendicularAC := mkPerp majX minZ

/-- A composite with three major axes and one minor axis. -/
def comp3Z : PerpendicularAC := mkPerp maj3 minZ

/-! ## Helper lemmas -/

/-- Folding `min` over a list of copies of `n`, starting from `n`, gives
`n`. -/
theorem foldl_min_const (l : List Nat) (n : Nat) (h : ∀ x ∈ l, x = n) :
    l.foldl min n = n := by
  induction l with
  | nil => rfl
  | cons a t ih =>
    have ha : a = n := h a (by simp)
    have ht : ∀ x ∈ t, x = n := fun x hx => h x (by simp [hx])
    simpa [ha] using ih ht

/-- When every coordinate list has length `n` and there is at least one
axis, `izip` produces exactly `n` tuples. -/
theorem izipLen_const (coords : List (List ℚ)) (n : Nat)
    (hne : coords ≠ []) (hlen : ∀ l ∈ coords, l.length = n) :
    izipLen coords = n := by
  match coords with
  | [] => exact absurd rfl hne
  | l :: rest =>
    have hl : l.length = n := hlen l (by simp)
    have : ∀ x ∈ rest.map List.length, x = n := by
      intro x hx
      rcases List.mem_map.mp hx with ⟨l', hl', hx'⟩
      exact hx' ▸ hlen l' (by simp [hl'])
    simpa [izipLen, hl] using foldl_min_const _ n this

/-- A `flatMap` of singleton singletons is a `map` to singletons. -/
theorem flatMap_singleton_map (l : List (ℚ × String)) :
    (l.flatMap fun x => [[x]]) = l.map fun x => [x] := by
  induction l with
  | nil => rfl
  | cons a t ih => simp [ih]

/-- For at most two steps lists, the meshgrid-transpose-reshape flattening
coincides with the plain first-axis-slowest Cartesian product. -/
theorem meshgridXYPlan_eq_cartProd (L : List (List (ℚ × String)))
    (h : L.length ≤ 2) : meshgridXYPlan L = cartProd L := by
  match L with
  | [] => rfl
  | [l] => simp [meshgridXYPlan, cartProd, flatMap_singleton_map]
  | [l1, l2] => simp [meshgridXYPlan]
  | l1 :: l2 :: l3 :: rest => simp at h

/-! ## Claim theorems for the composite axis coordinator -/

/-- Claim C4: per the spec (the wrappers are modelled from it, the base
class not being under src/), calling the composite's `move` with a position
sequence whose length differs from the composite axis count, or `raster`
with any argument sequence whose length differs from it, yields the usage
error and no command trace, so neither sub-collection is touched. -/
theorem move_raster_reject_bad_length (c : PerpendicularAC)
    (position : List ℚ) (absolute : Bool) (start stop : List ℚ)
    (num : List Nat) (dwell : Option ℚ)
    (hm : position.length ≠ c.len)
    (hr : start.length ≠ c.len ∨ stop.length ≠ c.len ∨ num.length ≠ c.len) :
    c.move position absolute = Except.error usageMoveMsg ∧
    c.raster start stop num dwell = Except.error usageRasterMsg := by
  constructor
  · simp [PerpendicularAC.move, hm]
  · unfold PerpendicularAC.raster
    rw [if_pos hr]

/-- Witness for `move_raster_reject_bad_length` on the three-axis composite
`compXYZ` with a two-entry position and a one-entry raster start. -/
theorem move_raster_reject_bad_length_witness :
    compXYZ.move [1, 2] true = Except.error usageMoveMsg ∧
    compXYZ.raster [0] [1, 1, 1] [2, 2, 2] (some 1)
      = Except.error usageRasterMsg :=
  move_raster_reject_bad_length compXYZ [1, 2] true [0] [1, 1, 1] [2, 2, 2]
    (some 1) (by decide) (Or.inl (by decide))

/-- Claim C5: on a position sequence of the composite's length, `_move`
issues exactly two commands — first the stored major collection's move with
the prefix of length `_n_major_axes`, then the stored minor collection's
move with the remaining suffix — both with the same `absolute` flag; the
prefix has exactly the major axis count, the suffix exactly the minor axis
count, and together they recombine to the input. -/
theorem move_splits_prefix_suffix (c : PerpendicularAC) (position : List ℚ)
    (absolute : Bool) (h : position.length = c.len) :
    c._move position absolute
      = [Ev.majorMove (position.take c.n_major_axes) absolute,
         Ev.minorMove (position.drop c.n_major_axes) absolute] ∧
    (position.take c.n_major_axes).length = c.n_major_axes ∧
    (position.drop c.n_major_axes).length = c.n_minor_axes ∧
    position.take c.n_major_axes ++ position.drop c.n_major_axes
      = position := by
  refine ⟨rfl, ?_, ?_, List.take_append_drop _ _⟩
  · rw [List.length_take, h]
    simp [PerpendicularAC.len]
  · rw [List.length_drop, h]
    simp [PerpendicularAC.len]

/-- Witness for `move_splits_prefix_suffix`: the spec's §8 example,
`move([1,2,3])` on a 2-major/1-minor composite sends the major axes to
`[1,2]` and then the minor axis to `[3]`. -/
theorem move_splits_prefix_suffix_witness :
    compXYZ._move [1, 2, 3] true
      = [Ev.majorMove (([1, 2, 3] : List ℚ).take compXYZ.n_major_axes) true,
         Ev.minorMove (([1, 2, 3] : List ℚ).drop compXYZ.n_major_axes) true]
      ∧ (([1, 2, 3] : List ℚ).take compXYZ.n_major_axes).length
          = compXYZ.n_major_axes
      ∧ (([1, 2, 3] : List ℚ).drop compXYZ.n_major_axes).length
          = compXYZ.n_minor_axes
      ∧ ([1, 2, 3] : List ℚ).take compXYZ.n_major_axes
          ++ ([1, 2, 3] : List ℚ).drop compXYZ.n_major_axes = [1, 2, 3] :=
  move_splits_prefix_suffix compXYZ [1, 2, 3] true (by decide)

/-- Claim C6: for a composite built from a major and a minor collection,
`position`, `limits` and `units` are each the concatenation of the major
collection's value followed by the minor collection's value, and the
composite's `__len__` is the sum of the two collections' axis counts. -/
theorem composite_concatenation (maj minr : SubAC) :
    (mkPerp maj minr).position = maj.position ++ minr.position ∧
    (mkPerp maj minr).limits = maj.limits ++ minr.limits ∧
    (mkPerp maj minr).units = maj.units ++ minr.units ∧
    (mkPerp maj minr).len = maj.len + minr.len :=
  ⟨rfl, rfl, rfl, rfl⟩

/-- Claim C7 fails on the code: on the 1-major/1-minor composite `compXZ`
with the well-formed raster arguments `start=[0,0]`, `stop=[1,1]`,
`num=[2,2]`, the loop body's attribute lookup `self._major_axis` (never
assigned — `__init__` stores `_major_axes`) raises `AttributeError` on the
first grid coordinate, so no major move and no minor raster is ever issued
and the call does not complete. -/
theorem raster_attribute_error_concrete :
    compXZ._raster [0, 0] [1, 1] [2, 2] (some 1) = Except.error attrErrMsg ∧
    compXZ.raster [0, 0] [1, 1] [2, 2] (some 1) = Except.error attrErrMsg := by
  have hplan : majorPlan compXZ [0, 0] [1, 1] [2, 2]
      = [[((0 : ℚ), "mm")], [(1, "mm")]] := by
    norm_num [majorPlan, majorAxisSteps, meshgridXYPlan, cartProd, linspace,
      compXZ, majX, minZ, mkPerp, List.range_succ]
  have hraw : compXZ._raster [0, 0] [1, 1] [2, 2] (some 1)
      = Except.error attrErrMsg := by
    simp [PerpendicularAC._raster, hplan]
  refine ⟨hraw, ?_⟩
  rw [PerpendicularAC.raster, if_neg (by simp [compXZ, majX, minZ, mkPerp,
    PerpendicularAC.len])]
  exact hraw

/-- Claim C8 fails on the code for three or more major axes: on the
3-major-axis composite `comp3Z`, discretizing every axis from 0 to 1 in 2
points, the flattened meshgrid plan differs from the first-axis-slowest
("typewriter") Cartesian product — the plan's second coordinate steps the
second axis, not the third, because meshgrid's default indexing swaps the
first two dimensions, so for these three axes the transpose-and-reshape
flattening varies the last axis slowest, then the first, then the
second. -/
theorem majorPlan_not_typewriter_three_axes :
    majorPlan comp3Z [0, 0, 0, 0] [1, 1, 1, 1] [2, 2, 2, 2]
      ≠ cartProd (majorAxisSteps comp3Z [0, 0, 0, 0] [1, 1, 1, 1]
          [2, 2, 2, 2]) := by
  have h1 : majorPlan comp3Z [0, 0, 0, 0] [1, 1, 1, 1] [2, 2, 2, 2]
      = [[((0 : ℚ), "mm"), (0, "mm"), (0, "mm")],
         [(0, "mm"), (1, "mm"), (0, "mm")],
         [(1, "mm"), (0, "mm"), (0, "mm")],
         [(1, "mm"), (1, "mm"), (0, "mm")],
         [(0, "mm"), (0, "mm"), (1, "mm")],
         [(0, "mm"), (1, "mm"), (1, "mm")],
         [(1, "mm"), (0, "mm"), (1, "mm")],
         [(1, "mm"), (1, "mm"), (1, "mm")]] := by
    norm_num [majorPlan, majorAxisSteps, meshgridXYPlan, cartProd, linspace,
      comp3Z, maj3, minZ, mkPerp, List.range_succ]
  have h2 : cartProd (majorAxisSteps comp3Z [0, 0, 0, 0] [1, 1, 1, 1]
        [2, 2, 2, 2])
      = [[((0 : ℚ), "mm"), (0, "mm"), (0, "mm")],
         [(0, "mm"), (0, "mm"), (1, "mm")],
         [(0, "mm"), (1, "mm"), (0, "mm")],
         [(0, "mm"), (1, "mm"), (1, "mm")],
         [(1, "mm"), (0, "mm"), (0, "mm")],
         [(1, "mm"), (0, "mm"), (1, "mm")],
         [(1, "mm"), (1, "mm"), (0, "mm")],
         [(1, "mm"), (1, "mm"), (1, "mm")]] := by
    norm_num [majorAxisSteps, cartProd, linspace,
      comp3Z, maj3, minZ, mkPerp, List.range_succ]
  rw [h1, h2]
  norm_num

/-- Claim C8, amended: when the major side contributes at most two
discretized axes (the steps list — one linspace grid per major axis, each
in its declared unit — has length at most 2, which is its length on any
call whose arguments cover all axes of a composite with at most two major
axes), the flattened plan is exactly the full Cartesian product of the
per-axis grids in first-axis-slowest typewriter order. -/
theorem majorPlan_typewriter_of_le_two (c : PerpendicularAC)
    (start stop : List ℚ) (num : List Nat)
    (h : (majorAxisSteps c start stop num).length ≤ 2) :
    majorPlan c start stop num
      = cartProd (majorAxisSteps c start stop num) :=
  meshgridXYPlan_eq_cartProd _ h

/-- Witness for `majorPlan_typewriter_of_le_two`: the 2-major-axis composite
`compXYZ` with both major axes discretized from 0 to 1 in 2 points. -/
theorem majorPlan_typewriter_of_le_two_witness :
    majorPlan compXYZ [0, 0, 0] [1, 1, 1] [2, 2, 2]
      = cartProd (majorAxisSteps compXYZ [0, 0, 0] [1, 1, 1] [2, 2, 2]) :=
  majorPlan_typewriter_of_le_two compXYZ [0, 0, 0] [1, 1, 1] [2, 2, 2]
    (by decide)

/-- Claim C9: a scan over per-axis coordinate lists all of length `n` (with
at least one axis) visits exactly `n` points; the `i`-th visited point
collects the `i`-th entry of every axis list (input order); and the trace is
exactly one `on_scan_start` with the full coordinate set and dwell time,
then for each point in order the composite `_move` (major prefix, then
minor suffix, absolute) immediately followed by one `on_scan_step` for that
point, then one `on_scan_complete` with the full coordinate set and dwell
time. -/
theorem scan_notification_sequence (c : PerpendicularAC)
    (coords : List (List ℚ)) (dwell : Option ℚ) (n : Nat)
    (hne : coords ≠ []) (hlen : ∀ l ∈ coords, l.length = n) :
    (izipAll coords).length = n ∧
    (∀ i, i < n → (izipAll coords)[i]?
        = some (coords.map (fun l => l.getD i 0))) ∧
    c._scan coords dwell
      = [Ev.scanStart coords dwell]
        ++ (izipAll coords).flatMap
            (fun p => [Ev.majorMove (p.take c.n_major_axes) true,
                       Ev.minorMove (p.drop c.n_major_axes) true,
                       Ev.scanStep p dwell])
        ++ [Ev.scanComplete coords dwell] := by
  have hz : izipLen coords = n := izipLen_const coords n hne hlen
  refine ⟨by simp [izipAll, hz], fun i hi => ?_, rfl⟩
  rw [izipAll, hz, List.getElem?_map, List.getElem?_range hi]
  rfl

/-- Witness for `scan_notification_sequence`: a 2-point scan of the
2-major/1-minor composite `compXYZ` over points `(1,2,3)` and `(4,5,6)`. -/
theorem scan_notification_sequence_witness :
    (izipAll [[1, 4], [2, 5], [3, 6]]).length = 2 ∧
    (∀ i, i < 2 → (izipAll [[1, 4], [2, 5], [3, 6]])[i]?
        = some (([[1, 4], [2, 5], [3, 6]] : List (List ℚ)).map
            (fun l => l.getD i 0))) ∧
    compXYZ._scan [[1, 4], [2, 5], [3, 6]] (some 1)
      = [Ev.scanStart [[1, 4], [2, 5], [3, 6]] (some 1)]
        ++ (izipAll [[1, 4], [2, 5], [3, 6]]).flatMap
            (fun p => [Ev.majorMove (p.take compXYZ.n_major_axes) true,
                       Ev.minorMove (p.drop compXYZ.n_major_axes) true,
                       Ev.scanStep p (some 1)])
        ++ [Ev.scanComplete [[1, 4], [2, 5], [3, 6]] (some 1)] :=
  scan_notification_sequence compXYZ [[1, 4], [2, 5], [3, 6]] (some 1) 2
    (by decide) (by decide)

/-- Claim C10: the `finest_axes` property body is the bare expression
`self._minor_axes` without a `return`, so reading it yields `None`, not the
minor sub-collection. -/
theorem finest_axes_returns_none (c : PerpendicularAC) :
    c.finest_axes = none ∧ c.finest_axes ≠ some c.minor_axes :=
  ⟨rfl, by simp [PerpendicularAC.finest_axes]⟩
